import Mathlib

/-!
# Verification of the SEO Research Pro front-end

Shallow embedding of the analysis client in this repository:

* src/unnamed/part_003 — the analyzer component with the URL validator
  (isValidUrl), the analyzeSEO request handler, the clipboard/CSV export
  helpers and the tabbed renderer;
* src/app/page.tsx — the keywords/competitor dashboard (analyzeKeywords,
  analyzeCompetitor, the competitor metric fallbacks) and the legacy
  analyzer (its analyzeSEO guarded only by the empty-string check).

JavaScript response payloads are modelled with Option fields (a missing
JSON field is none); JSX expression values are modelled by the JSVal type
together with JavaScript truthiness, so that the source's `a || b` and
`cond ? x : y` render logic is translated operator by operator.  JSON
numbers are modelled as naturals: every numeric value the claims exercise
is a small non-negative integer, on which the source's float arithmetic
(Math.floor(x * 0.8), Math.floor(x * 1.2), ...) is exact.
-/

namespace Seo

/-- A JavaScript value as it occurs in the rendered JSX expressions:
a number, a string, or undefined (a missing field). -/
inductive JSVal where
  | num (n : Nat)
  | str (s : String)
  | undefined
deriving DecidableEq, Repr

/-- JavaScript truthiness restricted to the values above: 0, the empty
string and undefined are falsy, everything else is truthy. -/
def JSVal.truthy : JSVal → Bool
  | .num n => n != 0
  | .str s => s != ""
  | .undefined => false

/-- The JavaScript expression a || b on the values above. -/
def jsOr (a b : JSVal) : JSVal := if a.truthy then a else b

/-- A possibly absent JSON number read as a JS value. -/
def optNum : Option Nat → JSVal
  | some n => .num n
  | none => .undefined

/-- A possibly absent JSON string read as a JS value. -/
def optStr : Option String → JSVal
  | some s => .str s
  | none => .undefined

/-- The string content of a JS value (used where the source interpolates
a value into an error message). -/
def JSVal.asString : JSVal → String
  | .num n => toString n
  | .str s => s
  | .undefined => "undefined"

/-- Helper for toLocaleString: the input is the reversed digit list; a
comma is inserted after every group of three digits. -/
def commaRev : List Char → List Char
  | c1 :: c2 :: c3 :: c4 :: rest => c1 :: c2 :: c3 :: ',' :: commaRev (c4 :: rest)
  | l => l

/-- Modelled from the spec: Number.prototype.toLocaleString as the
browser applies it in the dashboard (en-US digit grouping: the decimal
digits separated by commas in groups of three).  The platform function is
not part of the repository. -/
def toLocaleString (n : Nat) : String :=
  String.mk (commaRev (toString n).data.reverse).reverse

/-- A possibly absent JSON number read through the source's optional
chain field?.toLocaleString(): undefined when the field is missing, and
the grouped digit string (always a non-empty, hence truthy, string) when
it is present — even when the value is 0. -/
def optLocale : Option Nat → JSVal
  | some n => .str (toLocaleString n)
  | none => .undefined

/-- Modelled from the spec: String.prototype.trim — the platform function
used in the page.tsx guards (url.trim()); removes ASCII whitespace from
both ends. -/
def jsTrim (s : String) : String :=
  String.mk (((s.data.dropWhile Char.isWhitespace).reverse.dropWhile Char.isWhitespace).reverse)

/-! ## URL parsing (the platform URL constructor)

isValidUrl in src/unnamed/part_003 calls the WHATWG URL constructor,
which is a platform builtin, not repository code.  urlParse below is a
model of it for absolute URL strings, covering the behaviour the claims
depend on: a URL must start with a scheme (an ASCII letter followed by
letters, digits, +, - or .) and a colon; for the special schemes
(http, https, ws, wss, ftp) the parser then skips any run of slashes and
requires a non-empty host, failing otherwise; for file and for
non-special schemes the host may be empty (opaque paths such as
mailto:user@example.com parse with an empty host).  The protocol
property is the lowercased scheme with the trailing colon, as on the
platform.  Simplifications (irrelevant to the claims): userinfo is
dropped, the host keeps any port, and host code points are not
validated. -/

/-- A character allowed after the first character of a URL scheme. -/
def isSchemeChar (c : Char) : Bool :=
  c.isAlphanum || c = '+' || c = '-' || c = '.'

/-- Splits scheme characters until the colon; none when a character
outside the scheme grammar (or the end of input) is reached first. -/
def takeScheme (acc : List Char) : List Char → Option (List Char × List Char)
  | [] => none
  | c :: cs =>
    if c = ':' then some (acc.reverse, cs)
    else if isSchemeChar c then takeScheme (c :: acc) cs
    else none

/-- Splits an absolute URL string into its scheme and the remainder after
the colon; none when there is no leading scheme. -/
def splitScheme : List Char → Option (List Char × List Char)
  | [] => none
  | c :: cs => if c.isAlpha then takeScheme [c] cs else none

/-- The WHATWG special schemes whose URLs must carry a host. -/
def specialScheme (s : String) : Bool :=
  s = "http" || s = "https" || s = "ws" || s = "wss" || s = "ftp"

/-- The host portion of an authority: characters up to the first path,
query or fragment delimiter. -/
def hostChars (cs : List Char) : List Char :=
  cs.takeWhile (fun c => !(c = '/' || c = '?' || c = '#'))

/-- Drops a userinfo prefix: the characters after the last @ sign. -/
def dropUserinfo (cs : List Char) : List Char :=
  (cs.reverse.takeWhile (fun c => c ≠ '@')).reverse

/-- The components of a parsed URL the validator inspects. -/
structure URLParts where
  protocol : String
  host : String
deriving DecidableEq, Repr

/-- Modelled from the spec: the platform WHATWG URL constructor applied
to an absolute URL string (see the section comment above); none models a
thrown TypeError. -/
def urlParse (value : String) : Option URLParts :=
  match splitScheme value.data with
  | none => none
  | some (schemeChars, rest) =>
    let scheme := String.mk (schemeChars.map Char.toLower)
    if specialScheme scheme then
      let afterSlashes := rest.dropWhile (fun c => c = '/' || c = '\\')
      let host := dropUserinfo (hostChars afterSlashes)
      if host.isEmpty then none
      else some ⟨scheme ++ ":", String.mk host⟩
    else if scheme = "file" then
      match rest with
      | '/' :: '/' :: r => some ⟨"file:", String.mk (dropUserinfo (hostChars r))⟩
      | _ => some ⟨"file:", ""⟩
    else
      match rest with
      | '/' :: '/' :: r => some ⟨scheme ++ ":", String.mk (dropUserinfo (hostChars r))⟩
      | _ => some ⟨scheme ++ ":", ""⟩

/-- src/unnamed/part_003, isValidUrl: parse the string with the URL
constructor and require a truthy (non-empty) protocol and host; a parse
failure is caught and yields false. -/
def isValidUrl (value : String) : Bool :=
  match urlParse value with
  | some u => u.protocol != "" && u.host != ""
  | none => false

/-- The validator contract in the spec's words: the string parses as an
absolute URL and the parse has a non-empty scheme and a non-empty
host. -/
def specAcceptsUrl (value : String) : Prop :=
  ∃ u, urlParse value = some u ∧ u.protocol ≠ "" ∧ u.host ≠ ""

/-! ## Response payloads (src/app/page.tsx interfaces, src/unnamed/part_003) -/

/-- The keyword lists grouped by provenance (the keywords object of the
KeywordData / CompetitorData interfaces); each list is itself optional. -/
structure Keywords where
  gemini : Option (List String) := none
  onpage : Option (List String) := none
  merged : Option (List String) := none
deriving DecidableEq, Repr

/-- src/app/page.tsx, interface KeywordData.  word_count is declared as a
required number in the TypeScript interface but is modelled as optional
here, since nothing validates the JSON the backend actually returns. -/
structure KeywordData where
  url : String := ""
  title : Option String := none
  meta_description : Option String := none
  word_count : Option Nat := none
  keywords : Option Keywords := none
deriving DecidableEq, Repr

/-- The h1/h2/h3 lists of a headings object. -/
structure Headings where
  h1 : Option (List String) := none
  h2 : Option (List String) := none
  h3 : Option (List String) := none
deriving DecidableEq, Repr

/-- src/app/page.tsx, interface CompetitorData (word_count modelled as
optional for the same reason as in KeywordData). -/
structure CompetitorData where
  url : String := ""
  title : Option String := none
  meta_description : Option String := none
  word_count : Option Nat := none
  content_metrics : Option (List (String × Nat)) := none
  technical : Option (List (String × Bool)) := none
  headings : Option Headings := none
  keywords : Option Keywords := none
  estimated_traffic : Option Nat := none
  monthly_visitors : Option Nat := none
  bounce_rate : Option Nat := none
  avg_session_duration : Option String := none
  pages_per_session : Option Nat := none
  domain_authority : Option Nat := none
  page_authority : Option Nat := none
  backlinks : Option Nat := none
  referring_domains : Option Nat := none
  organic_keywords : Option Nat := none
  paid_keywords : Option Nat := none
  seo_score : Option Nat := none
  mobile_score : Option Nat := none
  page_speed : Option Nat := none
deriving DecidableEq, Repr

/-- src/unnamed/part_003, interface AnalyzePayload.  headings and
keywords are Record<string, string[]> objects, modelled as association
lists; they and technical are accessed through optional chaining or
|| defaults in the component, so they are modelled as optional. -/
structure AnalyzePayload where
  url : String := ""
  title : Option String := none
  meta_description : Option String := none
  word_count : Option Nat := none
  content_metrics : List (String × Nat) := []
  technical : Option (List (String × Bool)) := none
  headings : Option (List (String × List String)) := none
  keywords : Option (List (String × List String)) := none
deriving DecidableEq, Repr

/-- Property lookup in a Record<string, string[]> object. -/
def lookupList (m : List (String × List String)) (k : String) : Option (List String) :=
  (m.find? (fun p => p.1 == k)).map (fun p => p.2)

/-- Property lookup in a Record<string, boolean> object. -/
def lookupBool (m : List (String × Bool)) (k : String) : Option Bool :=
  (m.find? (fun p => p.1 == k)).map (fun p => p.2)

/-! ## Keyword accessors (src/app/page.tsx) -/

/-- getKeywordsByType for gemini: data.keywords?.gemini || []. -/
def getGemini (k : Option Keywords) : List String := (k.bind Keywords.gemini).getD []

/-- getKeywordsByType for onpage: data.keywords?.onpage || []. -/
def getOnpage (k : Option Keywords) : List String := (k.bind Keywords.onpage).getD []

/-- getKeywordsByType for merged: data.keywords?.merged || []. -/
def getMerged (k : Option Keywords) : List String := (k.bind Keywords.merged).getD []

/-- src/app/page.tsx, getAllKeywords: concatenate the three lists in the
order gemini, onpage, merged and deduplicate through a Set (first
occurrences kept); the empty list when keywords is absent. -/
def getAllKeywords (k : Option Keywords) : List String :=
  match k with
  | none => []
  | some _ => (getGemini k ++ getOnpage k ++ getMerged k).dedup

/-! ## Competitor metric cells (src/app/page.tsx, competitor tab)

Each definition below translates one JSX expression of the competitor
view.  Cards guarded by a bare truthiness test (seo_score && ...) are
modelled as Option JSVal: none means the card is not rendered.  Cells
that always render are JSVal. -/

/-- competitorData.seo_score && (SEO Score card). -/
def displayedSeoScoreCard (d : CompetitorData) : Option JSVal :=
  match d.seo_score with
  | some n => if n != 0 then some (.num n) else none
  | none => none

/-- competitorData.estimated_traffic && (Monthly Traffic card, rendered
with toLocaleString). -/
def displayedTrafficCard (d : CompetitorData) : Option JSVal :=
  match d.estimated_traffic with
  | some n => if n != 0 then some (.str (toLocaleString n)) else none
  | none => none

/-- competitorData.domain_authority && (Domain Authority card). -/
def displayedDomainAuthorityCard (d : CompetitorData) : Option JSVal :=
  match d.domain_authority with
  | some n => if n != 0 then some (.num n) else none
  | none => none

/-- competitorData.backlinks && (Backlinks card, rendered with
toLocaleString). -/
def displayedBacklinksCard (d : CompetitorData) : Option JSVal :=
  match d.backlinks with
  | some n => if n != 0 then some (.str (toLocaleString n)) else none
  | none => none

/-- monthly_visitors?.toLocaleString() ||
(estimated_traffic ? Math.floor(estimated_traffic * 1.2).toLocaleString() : 'N/A').
Math.floor(n * 1.2) is n * 12 / 10 in exact arithmetic. -/
def displayedMonthlyVisitors (d : CompetitorData) : JSVal :=
  jsOr (optLocale d.monthly_visitors)
    (match d.estimated_traffic with
     | some et => if et != 0 then .str (toLocaleString (et * 12 / 10)) else .str "N/A"
     | none => .str "N/A")

/-- competitorData.bounce_rate || '45.2' (the cell is rendered with a
percent sign appended). -/
def displayedBounceRate (d : CompetitorData) : JSVal :=
  jsOr (optNum d.bounce_rate) (.str "45.2")

/-- competitorData.avg_session_duration || '2:34'. -/
def displayedSessionDuration (d : CompetitorData) : JSVal :=
  jsOr (optStr d.avg_session_duration) (.str "2:34")

/-- organic_keywords?.toLocaleString() ||
(keywords ? getAllKeywords(competitorData).length.toLocaleString() : 'N/A'). -/
def displayedOrganicKeywords (d : CompetitorData) : JSVal :=
  jsOr (optLocale d.organic_keywords)
    (match d.keywords with
     | some _ => .str (toLocaleString (getAllKeywords d.keywords).length)
     | none => .str "N/A")

/-- page_authority ||
(domain_authority ? Math.floor(domain_authority * 0.8) : 'N/A').
Math.floor(n * 0.8) is n * 8 / 10 in exact arithmetic. -/
def displayedPageAuthority (d : CompetitorData) : JSVal :=
  jsOr (optNum d.page_authority)
    (match d.domain_authority with
     | some da => if da != 0 then .num (da * 8 / 10) else .str "N/A"
     | none => .str "N/A")

/-- referring_domains?.toLocaleString() ||
(backlinks ? Math.floor(backlinks / 10).toLocaleString() : 'N/A'). -/
def displayedReferringDomains (d : CompetitorData) : JSVal :=
  jsOr (optLocale d.referring_domains)
    (match d.backlinks with
     | some b => if b != 0 then .str (toLocaleString (b / 10)) else .str "N/A"
     | none => .str "N/A")

/-- mobile_score || (seo_score ? Math.floor(seo_score * 0.9) : 'N/A'). -/
def displayedMobileScore (d : CompetitorData) : JSVal :=
  jsOr (optNum d.mobile_score)
    (match d.seo_score with
     | some s => if s != 0 then .num (s * 9 / 10) else .str "N/A"
     | none => .str "N/A")

/-! ## Renderers -/

/-- The render of data.word_count.toLocaleString() in src/app/page.tsx
(lines 580 and 778): a method call on the field, which raises a TypeError
when the field is absent from the payload. -/
def renderWordCountCell (wc : Option Nat) : Except String String :=
  match wc with
  | some n => Except.ok (toLocaleString n)
  | none => Except.error "TypeError: cannot read toLocaleString of undefined"

/-- src/app/page.tsx, keywords tab: the displayed cells of the keyword
analysis view in document order.  Every access except word_count is
guarded by || or optional chaining. -/
def renderKeywordView (d : KeywordData) : Except String (List JSVal) := do
  let wc ← renderWordCountCell d.word_count
  Except.ok
    ([.str d.url,
      jsOr (optStr d.title) (.str "No title found"),
      .str wc] ++
     (d.meta_description.map JSVal.str).toList ++
     (getGemini d.keywords).map JSVal.str ++
     (getOnpage d.keywords).map JSVal.str ++
     (getMerged d.keywords).map JSVal.str)

/-- src/app/page.tsx, competitor tab: the displayed cells of the
competitor analysis view in document order.  Every access except
word_count is guarded. -/
def renderCompetitorView (d : CompetitorData) : Except String (List JSVal) := do
  let wc ← renderWordCountCell d.word_count
  Except.ok
    ([.str d.url] ++
     (displayedSeoScoreCard d).toList ++
     (displayedTrafficCard d).toList ++
     (displayedDomainAuthorityCard d).toList ++
     (displayedBacklinksCard d).toList ++
     [displayedMonthlyVisitors d,
      displayedBounceRate d,
      displayedSessionDuration d,
      displayedOrganicKeywords d,
      displayedPageAuthority d,
      displayedReferringDomains d,
      displayedMobileScore d,
      jsOr (optStr d.title) (.str "No title found"),
      .str wc] ++
     (d.meta_description.map JSVal.str).toList ++
     (getAllKeywords d.keywords).map JSVal.str)

/-- src/unnamed/part_003: const headings = data?.headings || {}. -/
def p3headings (d : AnalyzePayload) : List (String × List String) := d.headings.getD []

/-- src/unnamed/part_003: headings["h1"] || []. -/
def p3h1 (d : AnalyzePayload) : List String := (lookupList (p3headings d) "h1").getD []

/-- src/unnamed/part_003: headings["h2"] || []. -/
def p3h2 (d : AnalyzePayload) : List String := (lookupList (p3headings d) "h2").getD []

/-- src/unnamed/part_003: data?.keywords?.[k] || []. -/
def p3kw (d : AnalyzePayload) (k : String) : List String :=
  (d.keywords.bind (fun m => lookupList m k)).getD []

/-- src/unnamed/part_003: !!data.technical?.[k]. -/
def p3TechFlag (d : AnalyzePayload) (k : String) : Bool :=
  (d.technical.bind (fun m => lookupBool m k)).getD false

/-- src/unnamed/part_003, SEOAnalyzer result view: the displayed cells in
document order.  data.word_count is interpolated directly into JSX text
(no method call), so an absent value renders as nothing and cannot
throw; the renderer is total and the Except layer records that no access
on this path raises. -/
def renderAnalyzeView (d : AnalyzePayload) : Except String (List JSVal) :=
  Except.ok
    ([optNum d.word_count,
      .num (p3h1 d).length,
      .num (p3h2 d).length,
      .num (p3kw d "merged").length] ++
     (p3kw d "merged").map JSVal.str ++
     [.num (p3kw d "gemini").length] ++
     (p3kw d "gemini").map JSVal.str ++
     [.num (p3kw d "onpage").length] ++
     (p3kw d "onpage").map JSVal.str ++
     [jsOr (optStr d.title) (.str "No title detected"),
      jsOr (optStr d.meta_description) (.str "No meta description found")] ++
     (p3h1 d).map JSVal.str ++
     ((p3h2 d).take 10).map JSVal.str ++
     [.str (toString ((optStr d.meta_description).truthy || p3TechFlag d "has_meta_description")),
      .str (toString (decide ((p3h1 d).length > 0))),
      .str (toString (p3TechFlag d "has_canonical")),
      .str (toString (p3TechFlag d "has_og"))])

/-- True when the renderer completed without raising. -/
def renderOk (r : Except String (List JSVal)) : Bool :=
  match r with
  | .ok _ => true
  | .error _ => false

/-! ## Error-message formatting -/

/-- A parsed error body: the optional detail and message string fields.
When response.json() fails the source substitutes the empty object,
modelled by passing none for the whole body. -/
structure ErrorBody where
  detail : Option String := none
  message : Option String := none
deriving DecidableEq, Repr

/-- src/unnamed/part_003, analyzeSEO:
errorData?.detail || errorData?.message || "HTTP error! status: " ++ status;
the resulting string is thrown and then shown by setError. -/
def errorMessageP3 (body : Option ErrorBody) (status : Nat) : String :=
  (jsOr (optStr (body.bind ErrorBody.detail))
    (jsOr (optStr (body.bind ErrorBody.message))
      (.str ("HTTP error! status: " ++ toString status)))).asString

/-- src/app/page.tsx, analyzeKeywords and analyzeCompetitor:
errorData.detail || "HTTP error! status: " ++ status — the message field
is never consulted on these paths. -/
def errorMessagePage (body : Option ErrorBody) (status : Nat) : String :=
  (jsOr (optStr (body.bind ErrorBody.detail))
    (.str ("HTTP error! status: " ++ toString status))).asString

/-! ## Request handlers as state transitions -/

/-- The outcome of the awaited fetch/parse: a parsed payload, or the
message of the raised error (the formatted HTTP error, a transport
failure message, or the generic fallback string). -/
inductive FetchOutcome (α : Type) where
  | success (payload : α)
  | failure (msg : String)
deriving DecidableEq, Repr

/-- src/unnamed/part_003, SEOAnalyzer view state (the useState fields). -/
structure P3State where
  url : String := ""
  geminiTopN : Nat := 20
  loading : Bool := false
  data : Option AnalyzePayload := none
  error : String := ""
  copied : Bool := false
deriving DecidableEq, Repr

/-- The initial part_003 view state (the useState initial values). -/
def initialP3State : P3State := {}

/-- src/unnamed/part_003, analyzeSEO guard: the fetch is issued exactly
when the url is non-empty and isValidUrl accepts it
(if (!url || !valid) return). -/
def analyzeSEOp3Fetches (url : String) : Bool :=
  url != "" && isValidUrl url

/-- src/unnamed/part_003, analyzeSEO as a transition on the view state:
when the guard blocks, the state is unchanged and no fetch occurs;
otherwise error and copied are reset, and the completed request either
stores the payload (success) or clears the data and stores the error
message (catch branch: setData(null); setError(msg)).  loading is true
only between the two, so it is false in every completed state. -/
def analyzeSEOp3 (s : P3State) (o : FetchOutcome AnalyzePayload) : P3State :=
  if analyzeSEOp3Fetches s.url then
    match o with
    | .success p => { s with loading := false, error := "", copied := false, data := some p }
    | .failure m => { s with loading := false, error := m, copied := false, data := none }
  else s

/-- src/app/page.tsx, dashboard view state (the useState fields of the
keywords/competitor component). -/
structure PageState where
  url : String := ""
  loading : Bool := false
  keywordData : Option KeywordData := none
  competitorData : Option CompetitorData := none
  error : String := ""
deriving DecidableEq, Repr

/-- src/app/page.tsx, analyzeKeywords guard: the fetch is issued exactly
when url.trim() is non-empty (if (!url.trim()) return) — syntactic URL
validity is not checked on this path. -/
def analyzeKeywordsFetches (url : String) : Bool :=
  jsTrim url != ""

/-- src/app/page.tsx, analyzeCompetitor guard: identical to the
analyzeKeywords guard. -/
def analyzeCompetitorFetches (url : String) : Bool :=
  jsTrim url != ""

/-- src/app/page.tsx legacy analyzer (the first component), analyzeSEO
guard: only if (!url) return — any non-empty string is fetched. -/
def analyzeSEOLegacyFetches (url : String) : Bool :=
  url != ""

/-- src/app/page.tsx, analyzeKeywords as a transition on the view state:
on success the payload is stored; in the catch branch only the error is
set — the previously displayed keywordData is NOT cleared. -/
def analyzeKeywords (s : PageState) (o : FetchOutcome KeywordData) : PageState :=
  if analyzeKeywordsFetches s.url then
    match o with
    | .success p => { s with loading := false, error := "", keywordData := some p }
    | .failure m => { s with loading := false, error := m }
  else s

/-- src/app/page.tsx, analyzeCompetitor as a transition on the view
state: same shape as analyzeKeywords; competitorData is not cleared in
the catch branch. -/
def analyzeCompetitor (s : PageState) (o : FetchOutcome CompetitorData) : PageState :=
  if analyzeCompetitorFetches s.url then
    match o with
    | .success p => { s with loading := false, error := "", competitorData := some p }
    | .failure m => { s with loading := false, error := m }
  else s

/-! ## Export helpers (src/unnamed/part_003) -/

/-- The merged keyword list the export helpers read:
data?.keywords?.["merged"] || []. -/
def mergedOf (d : Option AnalyzePayload) : List String :=
  (d.bind (fun p => p.keywords.bind (fun m => lookupList m "merged"))).getD []

/-- src/unnamed/part_003, copyMerged: early return (no clipboard write)
when the merged list is empty, otherwise the newline-joined list is
placed on the clipboard; the result is the written clipboard text, none
when nothing happens. -/
def copyMerged (d : Option AnalyzePayload) : Option String :=
  let merged := mergedOf d
  if merged.length = 0 then none
  else some (String.intercalate "\n" merged)

/-- src/unnamed/part_003, downloadCSV row formatter:
source ++ "," ++ the keyword in double quotes with inner quotes doubled
(kw.replace(/"/g, '""')). -/
def escapeQuotes (s : String) : String :=
  String.mk ((s.data.map (fun c => if c = '"' then ['"', '"'] else [c])).flatten)

/-- One CSV row: source,"keyword". -/
def csvRow (source kw : String) : String :=
  source ++ ",\"" ++ escapeQuotes kw ++ "\""

/-- src/unnamed/part_003, downloadCSV rows: the header line followed by
one row per keyword, merged first, then gemini, then onpage. -/
def downloadCSVRows (d : Option AnalyzePayload) : List String :=
  let get := fun (k : String) => (d.bind (fun p => p.keywords.bind (fun m => lookupList m k))).getD []
  ["source,keyword"] ++
    (get "merged").map (csvRow "merged") ++
    (get "gemini").map (csvRow "gemini") ++
    (get "onpage").map (csvRow "onpage")

/-- src/unnamed/part_003, downloadCSV content: the UTF-8 byte-order mark
followed by the newline-joined rows ("﻿" + rows.join("\n")). -/
def downloadCSVContent (d : Option AnalyzePayload) : String :=
  "\uFEFF" ++ String.intercalate "\n" (downloadCSVRows d)

/-- src/unnamed/part_003, downloadCSV as an effect: the function has no
empty-list guard — it unconditionally builds the blob and clicks the
download anchor, so a download with the content above is always
triggered (none would model no download occurring). -/
def downloadCSVDownload (d : Option AnalyzePayload) : Option String :=
  some (downloadCSVContent d)

/-! ## Request construction (src/unnamed/part_003, analyzeSEO) -/

/-- One hexadecimal digit (uppercase, as percent-encoding emits). -/
def hexDigit (n : Nat) : Char :=
  if n < 10 then Char.ofNat (48 + n) else Char.ofNat (55 + n)

/-- Modelled from the spec: URLSearchParams serialization of one ASCII
character (application/x-www-form-urlencoded): alphanumerics and
* - . _ are kept, a space becomes +, anything else is percent-encoded.
The platform encoder is not part of the repository; non-ASCII input
(which would be UTF-8 percent-encoded) is outside what the claims
exercise. -/
def formEncodeChar (c : Char) : List Char :=
  if c.isAlphanum || c = '*' || c = '-' || c = '.' || c = '_' then [c]
  else if c = ' ' then ['+']
  else ['%', hexDigit (c.toNat / 16 % 16), hexDigit (c.toNat % 16)]

/-- Modelled from the spec: URLSearchParams value encoding applied to a
whole string. -/
def formEncode (s : String) : String :=
  String.mk ((s.data.map formEncodeChar).flatten)

/-- src/unnamed/part_003, analyzeSEO request URL:
API_URL = process.env.NEXT_PUBLIC_FASTAPI_URL || "http://localhost:8000",
params = new URLSearchParams(url, gemini_top_n), fetch(API_URL ++
"/analyze?" ++ params) — the env value is none when unset; an empty env
value is falsy and also falls back to the local default. -/
def analyzeRequestURL (env : Option String) (url : String) (topN : Nat) : String :=
  let apiUrl := (jsOr (optStr env) (.str "http://localhost:8000")).asString
  apiUrl ++ "/analyze?url=" ++ formEncode url ++ "&gemini_top_n=" ++ toString topN

/-- src/unnamed/part_003, the AI-keywords number input handler:
setGeminiTopN(Number(e.target.value || 0)).  The field value is none
when the input is cleared (the empty string, falsy, so Number(0) = 0)
and some n for a typed number n; the input declares min 5 and max 100
but the handler does not clamp. -/
def onTopNChange : Option Nat → Nat
  | none => 0
  | some n => n

/-- The min attribute of the AI-keywords number input. -/
def topNInputMin : Nat := 5

/-- The max attribute of the AI-keywords number input. -/
def topNInputMax : Nat := 100

example : formEncode "https://example.com" = "https%3A%2F%2Fexample.com" := by decide
example : errorMessageP3 (some { detail := some "backend overloaded" }) 500 = "backend overloaded" := by decide
example : errorMessageP3 none 404 = "HTTP error! status: 404" := by decide

example : isValidUrl "https://example.com" = true := by decide
example : isValidUrl "example.com" = false := by decide
example : isValidUrl "not a url" = false := by decide
example : isValidUrl "mailto:user@example.com" = false := by decide
example : isValidUrl "" = false := by decide
example : isValidUrl "https://" = false := by decide
example : toLocaleString 1200 = "1,200" := by decide
example : toLocaleString 1000000 = "1,000,000" := by decide

/-- Short-circuiting of the modelled a || b: a truthy left operand is
returned unchanged. -/
theorem jsOr_truthy (a b : JSVal) (h : a.truthy = true) : jsOr a b = a := by
  simp [jsOr, h]

/-! ## Concrete payloads used by the theorems -/

/-- A keyword payload whose word_count field is absent. -/
def c1missing : KeywordData := { url := "https://example.com" }

/-- A keyword payload whose word_count field is present. -/
def c1present : KeywordData := { url := "https://example.com", word_count := some 1200 }

/-- A competitor payload whose word_count field is present. -/
def c1competitor : CompetitorData := { url := "https://example.com", word_count := some 3400 }

/-- A previously loaded keyword result. -/
def c2payload : KeywordData := { url := "https://example.com", word_count := some 100 }

/-- A dashboard state that is displaying c2payload. -/
def c2prior : PageState := { url := "https://example.com", keywordData := some c2payload }

/-- A part_003 state with a valid URL entered. -/
def c2winState : P3State := { url := "https://example.com" }

/-- A successfully parsed part_003 payload. -/
def c2winPayload : AnalyzePayload := { url := "https://example.com", word_count := some 12 }

/-- The competitor payload of the spec's derived-estimate examples:
domain_authority 50 and estimated_traffic 1000, with page_authority and
monthly_visitors absent. -/
def c5payload : CompetitorData :=
  { url := "https://competitor.com", word_count := some 500,
    domain_authority := some 50, estimated_traffic := some 1000 }

/-- The CSV-export payload of the spec's example. -/
def c7payload : AnalyzePayload :=
  { url := "https://example.com",
    keywords := some [("gemini", ["ai"]), ("onpage", []), ("merged", ["seo", "tools"])] }

/-- A payload whose three keyword lists are all present and empty. -/
def c8empty : AnalyzePayload :=
  { url := "https://example.com",
    keywords := some [("gemini", []), ("onpage", []), ("merged", [])] }

/-- A competitor payload with monthly_visitors present and equal to 0
next to estimated_traffic 1000. -/
def c10payload : CompetitorData :=
  { url := "https://competitor.com", word_count := some 100,
    monthly_visitors := some 0, estimated_traffic := some 1000 }

/-- A competitor payload with several metrics present and equal to 0. -/
def c10zeros : CompetitorData :=
  { url := "https://competitor.com", word_count := some 100,
    bounce_rate := some 0, seo_score := some 0, estimated_traffic := some 0,
    domain_authority := some 50, page_authority := some 0 }

/-! ## C1 -/

/-- C1, counterexample: the claim says absence of any numeric field never
causes the renderer to throw, listing word_count among them; but the
page.tsx keyword view calls toLocaleString on word_count, so a payload
without word_count makes the render raise a TypeError. -/
theorem c1_word_count_absent_throws :
    renderKeywordView c1missing =
      Except.error "TypeError: cannot read toLocaleString of undefined" ∧
    renderOk (renderKeywordView c1missing) = false := by
  constructor <;> rfl

/-- C1 (amended): every render-path access of a field that the interfaces
declare optional falls back to a placeholder and cannot throw; only the
word_count accesses of the page.tsx views (a field the interfaces declare
required) throw when the field is absent.  So: both page.tsx renderers
succeed on every payload whose word_count is present, and the part_003
renderer succeeds on every payload. -/
theorem c1_optional_fields_never_throw :
    (∀ d : KeywordData, d.word_count.isSome → renderOk (renderKeywordView d) = true) ∧
    (∀ d : CompetitorData, d.word_count.isSome → renderOk (renderCompetitorView d) = true) ∧
    (∀ d : AnalyzePayload, renderOk (renderAnalyzeView d) = true) := by
  refine ⟨?_, ?_, ?_⟩
  · intro d h
    rcases Option.isSome_iff_exists.mp h with ⟨n, hn⟩
    simp [renderKeywordView, renderWordCountCell, hn, renderOk, Bind.bind, Except.bind]
  · intro d h
    rcases Option.isSome_iff_exists.mp h with ⟨n, hn⟩
    simp [renderCompetitorView, renderWordCountCell, hn, renderOk, Bind.bind, Except.bind]
  · intro d
    simp [renderAnalyzeView, renderOk]

/-- C1 witness: the amended theorem applied to concrete payloads with
word_count present. -/
theorem c1_optional_fields_never_throw_witness :
    renderOk (renderKeywordView c1present) = true ∧
    renderOk (renderCompetitorView c1competitor) = true :=
  ⟨c1_optional_fields_never_throw.1 c1present (by decide),
   c1_optional_fields_never_throw.2.1 c1competitor (by decide)⟩

/-! ## C2 -/

/-- C2, counterexample: the claim says every failed request clears the
previously displayed result, so result and error are never both set; but
the page.tsx analyzeKeywords catch branch only sets the error, leaving
the stale keyword result displayed next to it. -/
theorem c2_error_keeps_stale_result :
    (analyzeKeywords c2prior (FetchOutcome.failure "HTTP error! status: 500")).keywordData
      = some c2payload ∧
    (analyzeKeywords c2prior (FetchOutcome.failure "HTTP error! status: 500")).error
      = "HTTP error! status: 500" := by
  constructor <;> rfl

/-- C2 (amended): the part_003 analyzeSEO maintains the claimed
exclusivity — after every completed request exactly one of the result
object and the (non-empty) error message is set, failures clearing the
previous result — while the page.tsx analyzeKeywords keeps the previous
result unchanged on failure, so both can be set there. -/
theorem c2_result_error_exclusive :
    (∀ (s : P3State) (o : FetchOutcome AnalyzePayload),
      analyzeSEOp3Fetches s.url = true →
      (∀ m, o = FetchOutcome.failure m → m ≠ "") →
      ((analyzeSEOp3 s o).data ≠ none ∧ (analyzeSEOp3 s o).error = "") ∨
      ((analyzeSEOp3 s o).data = none ∧ (analyzeSEOp3 s o).error ≠ "")) ∧
    (∀ (s : PageState) (m : String),
      analyzeKeywordsFetches s.url = true →
      (analyzeKeywords s (FetchOutcome.failure m)).keywordData = s.keywordData ∧
      (analyzeKeywords s (FetchOutcome.failure m)).error = m) := by
  constructor
  · intro s o hf hm
    cases o with
    | success p => left; simp [analyzeSEOp3, hf]
    | failure m =>
      right
      simp [analyzeSEOp3, hf]
      exact hm m rfl
  · intro s m hf
    simp [analyzeKeywords, hf]

/-- C2 witness: the amended theorem applied to a successful part_003
request and to a failed page.tsx request over a displayed result. -/
theorem c2_result_error_exclusive_witness :
    (((analyzeSEOp3 c2winState (FetchOutcome.success c2winPayload)).data ≠ none ∧
      (analyzeSEOp3 c2winState (FetchOutcome.success c2winPayload)).error = "") ∨
     ((analyzeSEOp3 c2winState (FetchOutcome.success c2winPayload)).data = none ∧
      (analyzeSEOp3 c2winState (FetchOutcome.success c2winPayload)).error ≠ "")) ∧
    ((analyzeKeywords c2prior (FetchOutcome.failure "boom")).keywordData = c2prior.keywordData ∧
     (analyzeKeywords c2prior (FetchOutcome.failure "boom")).error = "boom") :=
  ⟨c2_result_error_exclusive.1 c2winState _ (by decide) (fun _ h => nomatch h),
   c2_result_error_exclusive.2 c2prior "boom" (by decide)⟩

/-! ## C3 -/

/-- C3, counterexample: the claim says no fetch is issued for any string
that is not a valid absolute URL; but the page.tsx analyzeKeywords guard
only rejects blank input, so the invalid string "not a url" is fetched
(as it is by the legacy analyzeSEO). -/
theorem c3_invalid_url_still_fetches :
    isValidUrl "not a url" = false ∧
    analyzeKeywordsFetches "not a url" = true ∧
    analyzeSEOLegacyFetches "not a url" = true := by
  refine ⟨by decide, by decide, by decide⟩

/-- C3 (amended): the part_003 analyzeSEO never fetches on an empty or
invalid URL; the page.tsx handlers only block empty or whitespace-only
input (an invalid non-blank string is still fetched there). -/
theorem c3_fetch_guards :
    (∀ url, isValidUrl url = false → analyzeSEOp3Fetches url = false) ∧
    analyzeSEOp3Fetches "" = false ∧
    (∀ url, jsTrim url = "" →
      analyzeKeywordsFetches url = false ∧ analyzeCompetitorFetches url = false) ∧
    analyzeSEOLegacyFetches "" = false := by
  refine ⟨?_, by decide, ?_, by decide⟩
  · intro url h
    simp [analyzeSEOp3Fetches, h]
  · intro url h
    constructor <;> simp [analyzeKeywordsFetches, analyzeCompetitorFetches, h]

/-- C3 witness: the amended theorem applied to an invalid string and to
whitespace-only input. -/
theorem c3_fetch_guards_witness :
    analyzeSEOp3Fetches "hello" = false ∧ analyzeKeywordsFetches "   " = false :=
  ⟨c3_fetch_guards.1 "hello" (by decide), (c3_fetch_guards.2.2.1 "   " (by decide)).1⟩

/-! ## C4 -/

/-- C4: isValidUrl returns true exactly when the string parses as an
absolute URL whose scheme and host are both non-empty; strings lacking a
scheme or a host (including well-formed host-less absolute URLs such as
mailto:) are rejected. -/
theorem c4_validator_contract :
    (∀ value : String, isValidUrl value = true ↔ specAcceptsUrl value) ∧
    isValidUrl "https://example.com" = true ∧
    isValidUrl "example.com" = false ∧
    isValidUrl "mailto:user@example.com" = false ∧
    isValidUrl "" = false := by
  refine ⟨?_, by decide, by decide, by decide, by decide⟩
  intro value
  unfold isValidUrl specAcceptsUrl
  cases h : urlParse value with
  | none => simp
  | some u => simp [bne_iff_ne]

/-- C4 witness: the contract equivalence applied at a concrete URL. -/
theorem c4_validator_contract_witness :
    isValidUrl "https://example.com" = true ↔ specAcceptsUrl "https://example.com" :=
  c4_validator_contract.1 "https://example.com"

/-! ## C5 -/

/-- C5: when page_authority is absent and domain_authority is 50 the
displayed page authority is 40 (the floor of 50 times 0.8); when
monthly_visitors is absent and estimated_traffic is 1000 the displayed
monthly visitors figure is 1200 (rendered as the grouped string). -/
theorem c5_derived_display_estimates :
    (∀ d : CompetitorData, d.page_authority = none → d.domain_authority = some 50 →
      displayedPageAuthority d = JSVal.num 40) ∧
    (∀ d : CompetitorData, d.monthly_visitors = none → d.estimated_traffic = some 1000 →
      displayedMonthlyVisitors d = JSVal.str "1,200") ∧
    toLocaleString 1200 = "1,200" := by
  refine ⟨?_, ?_, by decide⟩
  · intro d h1 h2
    simp only [displayedPageAuthority, h1, h2]
    decide
  · intro d h1 h2
    simp only [displayedMonthlyVisitors, h1, h2]
    decide

/-- C5 witness: the theorem applied to the concrete payload of the
spec's examples. -/
theorem c5_derived_display_estimates_witness :
    displayedPageAuthority c5payload = JSVal.num 40 ∧
    displayedMonthlyVisitors c5payload = JSVal.str "1,200" :=
  ⟨c5_derived_display_estimates.1 c5payload rfl rfl,
   c5_derived_display_estimates.2.1 c5payload rfl rfl⟩

/-! ## C6 -/

/-- C6, counterexample: the claim says a present message field is
displayed; but the page.tsx handlers consult only the detail field, so a
500 body carrying only message shows the generic text. -/
theorem c6_message_field_ignored :
    errorMessagePage (some { message := some "backend overloaded" }) 500
      = "HTTP error! status: 500" ∧
    errorMessagePage (some { message := some "backend overloaded" }) 500
      ≠ "backend overloaded" := by
  refine ⟨by decide, by decide⟩

/-- C6 (amended): in the part_003 analyzer the displayed error text is
the body's detail field when present and non-empty, else its message
field when present and non-empty, else the generic status text; a 500
body whose detail is "backend overloaded" displays exactly that string.
The page.tsx handlers consult only detail, so a message-only body gets
the generic text there. -/
theorem c6_error_text_formatting :
    (∀ (b : ErrorBody) (status : Nat) (d : String), b.detail = some d → d ≠ "" →
      errorMessageP3 (some b) status = d) ∧
    (∀ (b : ErrorBody) (status : Nat) (m : String),
      b.detail = none → b.message = some m → m ≠ "" →
      errorMessageP3 (some b) status = m) ∧
    (∀ status : Nat, errorMessageP3 none status = "HTTP error! status: " ++ toString status) ∧
    errorMessageP3 (some { detail := some "backend overloaded" }) 500 = "backend overloaded" ∧
    (∀ (b : ErrorBody) (status : Nat) (m : String), b.detail = none → b.message = some m →
      errorMessagePage (some b) status = "HTTP error! status: " ++ toString status) := by
  refine ⟨?_, ?_, ?_, by decide, ?_⟩
  · intro b status d hd hne
    simp [errorMessageP3, hd, optStr, jsOr, JSVal.truthy, JSVal.asString, hne]
  · intro b status m hd hm hne
    simp [errorMessageP3, hd, hm, optStr, jsOr, JSVal.truthy, JSVal.asString, hne]
  · intro status
    simp [errorMessageP3, optStr, jsOr, JSVal.truthy, JSVal.asString]
  · intro b status m hd hm
    simp [errorMessagePage, hd, optStr, jsOr, JSVal.truthy, JSVal.asString]

/-- C6 witness: the amended theorem applied to concrete error bodies. -/
theorem c6_error_text_formatting_witness :
    errorMessageP3 (some { detail := some "backend overloaded" }) 500 = "backend overloaded" ∧
    errorMessageP3 (some { message := some "try later" }) 502 = "try later" ∧
    errorMessagePage (some { message := some "try later" }) 502 = "HTTP error! status: 502" :=
  ⟨c6_error_text_formatting.1 { detail := some "backend overloaded" } 500
      "backend overloaded" rfl (by decide),
   c6_error_text_formatting.2.1 { message := some "try later" } 502 "try later" rfl rfl
      (by decide),
   c6_error_text_formatting.2.2.2.2 { message := some "try later" } 502 "try later" rfl rfl⟩

/-! ## C7 -/

/-- C7: the CSV export is the UTF-8 byte-order mark, the header line, and
one quoted row per keyword in the order merged, gemini, onpage; for
merged being seo and tools, gemini being ai, onpage empty, the rows after
the header are exactly the three claimed ones and onpage contributes no
rows. -/
theorem c7_csv_serialization :
    downloadCSVRows (some c7payload) =
      ["source,keyword", "merged,\"seo\"", "merged,\"tools\"", "gemini,\"ai\""] ∧
    downloadCSVContent (some c7payload) =
      "\uFEFFsource,keyword\nmerged,\"seo\"\nmerged,\"tools\"\ngemini,\"ai\"" ∧
    (∀ p : AnalyzePayload, downloadCSVRows (some p) =
      "source,keyword" ::
        ((p3kw p "merged").map (csvRow "merged") ++
         (p3kw p "gemini").map (csvRow "gemini") ++
         (p3kw p "onpage").map (csvRow "onpage"))) := by
  refine ⟨by decide, by decide, ?_⟩
  intro p
  simp [downloadCSVRows, p3kw]

/-! ## C8 -/

/-- C8, counterexample: the claim says the CSV export does nothing when
the keyword lists are empty; but downloadCSV has no empty-list guard, so
a header-only download is still triggered. -/
theorem c8_empty_export_still_downloads :
    downloadCSVDownload (some c8empty) ≠ none ∧
    downloadCSVDownload (some c8empty) = some "\uFEFFsource,keyword" := by
  refine ⟨by decide, by decide⟩

/-- C8 (amended): copyMerged is a no-op when the merged list is empty (so
in particular before any data is loaded), as claimed; downloadCSV,
however, always triggers a download — with empty lists it downloads the
header-only CSV. -/
theorem c8_export_effects :
    (∀ d : Option AnalyzePayload, mergedOf d = [] → copyMerged d = none) ∧
    copyMerged none = none ∧
    (∀ d : Option AnalyzePayload, downloadCSVDownload d = some (downloadCSVContent d)) ∧
    downloadCSVContent (some c8empty) = "\uFEFFsource,keyword" := by
  refine ⟨?_, by decide, fun d => rfl, by decide⟩
  intro d h
  simp [copyMerged, h]

/-- C8 witness: the no-op branch of copyMerged applied to the payload
with empty lists. -/
theorem c8_export_effects_witness :
    copyMerged (some c8empty) = none :=
  c8_export_effects.1 (some c8empty) (by decide)

/-! ## C9 -/

/-- C9, counterexample: the claim says the UI bounds gemini_top_n to the
range 5 to 100; but the change handler stores Number(value || 0) without
clamping, so clearing the field stores 0 and the constructed request
carries gemini_top_n=0, outside the claimed range. -/
theorem c9_top_n_not_bounded :
    onTopNChange none = 0 ∧
    ¬(topNInputMin ≤ onTopNChange none ∧ onTopNChange none ≤ topNInputMax) ∧
    analyzeRequestURL none "https://example.com" (onTopNChange none) =
      "http://localhost:8000/analyze?url=https%3A%2F%2Fexample.com&gemini_top_n=0" := by
  refine ⟨rfl, by decide, by decide⟩

/-- C9 (amended): gemini_top_n defaults to 20, the number input declares
min 5 and max 100, and the request is GET origin/analyze with the URL
form-encoded, the origin from the environment value or the local default
when unset or empty; but the change handler does not clamp, so values
outside 5 to 100 (0 when the field is cleared) can be submitted. -/
theorem c9_request_construction :
    initialP3State.geminiTopN = 20 ∧
    topNInputMin = 5 ∧
    topNInputMax = 100 ∧
    (∀ (url : String) (n : Nat), analyzeRequestURL none url n =
      "http://localhost:8000/analyze?url=" ++ formEncode url ++ "&gemini_top_n=" ++ toString n) ∧
    (∀ (env url : String) (n : Nat), env ≠ "" → analyzeRequestURL (some env) url n =
      env ++ "/analyze?url=" ++ formEncode url ++ "&gemini_top_n=" ++ toString n) ∧
    (∀ n : Nat, onTopNChange (some n) = n) := by
  refine ⟨rfl, rfl, rfl, fun url n => rfl, ?_, fun n => rfl⟩
  intro env url n h
  simp [analyzeRequestURL, jsOr, optStr, JSVal.truthy, JSVal.asString, h]

/-- C9 witness: the request construction applied with a configured
backend origin. -/
theorem c9_request_construction_witness :
    analyzeRequestURL (some "https://api.example.com") "https://example.com" 20 =
      "https://api.example.com" ++ "/analyze?url=" ++ formEncode "https://example.com" ++
        "&gemini_top_n=" ++ toString 20 :=
  c9_request_construction.2.2.2.2.1 "https://api.example.com" "https://example.com" 20
    (by decide)

/-! ## C10 -/

/-- C10, counterexample: the claim says every present-but-zero optional
metric is treated as absent; but monthly_visitors is read through
toLocaleString before the fallback, and the string "0" is truthy, so a
payload with monthly_visitors 0 displays the real 0 — neither the derived
estimate from estimated_traffic nor the placeholder. -/
theorem c10_zero_monthly_visitors_displayed :
    displayedMonthlyVisitors c10payload = JSVal.str "0" ∧
    displayedMonthlyVisitors c10payload ≠ JSVal.str (toLocaleString (1000 * 12 / 10)) ∧
    displayedMonthlyVisitors c10payload ≠ JSVal.str "N/A" := by
  refine ⟨by decide, by decide, by decide⟩

/-- C10 (amended): metrics tested by raw truthiness do treat a present 0
as absent — bounce_rate 0 displays the hardcoded 45.2, seo_score 0
suppresses the SEO Score card, estimated_traffic 0 and domain_authority 0
suppress their cards, and page_authority 0 falls back to the derived
estimate — but metrics converted to a string before the fallback
(monthly_visitors among them) display the real 0. -/
theorem c10_zero_metric_fallbacks :
    (∀ d : CompetitorData, d.bounce_rate = some 0 → displayedBounceRate d = JSVal.str "45.2") ∧
    (∀ d : CompetitorData, d.seo_score = some 0 → displayedSeoScoreCard d = none) ∧
    (∀ d : CompetitorData, d.estimated_traffic = some 0 → displayedTrafficCard d = none) ∧
    (∀ d : CompetitorData, d.domain_authority = some 0 →
      displayedDomainAuthorityCard d = none) ∧
    (∀ (d : CompetitorData) (da : Nat), d.page_authority = some 0 →
      d.domain_authority = some da → da ≠ 0 →
      displayedPageAuthority d = JSVal.num (da * 8 / 10)) ∧
    (∀ d : CompetitorData, d.monthly_visitors = some 0 →
      displayedMonthlyVisitors d = JSVal.str "0") := by
  refine ⟨?_, ?_, ?_, ?_, ?_, ?_⟩
  · intro d h
    simp only [displayedBounceRate, h]
    decide
  · intro d h
    simp only [displayedSeoScoreCard, h]
    decide
  · intro d h
    simp only [displayedTrafficCard, h]
    decide
  · intro d h
    simp only [displayedDomainAuthorityCard, h]
    decide
  · intro d da h1 h2 hda
    simp only [displayedPageAuthority, h1, h2]
    simp [jsOr, optNum, JSVal.truthy, hda]
  · intro d h
    simp only [displayedMonthlyVisitors, h, optLocale]
    rw [jsOr_truthy _ _ (by decide)]
    decide

/-- C10 witness: the amended theorem applied to the payload whose metrics
are present and zero. -/
theorem c10_zero_metric_fallbacks_witness :
    displayedBounceRate c10zeros = JSVal.str "45.2" ∧
    displayedSeoScoreCard c10zeros = none ∧
    displayedPageAuthority c10zeros = JSVal.num (50 * 8 / 10) :=
  ⟨c10_zero_metric_fallbacks.1 c10zeros rfl,
   c10_zero_metric_fallbacks.2.1 c10zeros rfl,
   c10_zero_metric_fallbacks.2.2.2.2.1 c10zeros 50 rfl rfl (by decide)⟩

end Seo
